import Mathlib

/-!
Verification development for the PiBoat onboard control core.

This file gives a shallow embedding, in Lean 4, of the parts of the
repository that the specification's testable properties talk about:

* piboat/device/motor_controller.py  (actuator safety layer),
* piboat/device/commands.py          (command handling and acknowledgement),
* piboat/device/telemetry.py         (telemetry fusion: heading smoothing,
                                      position/speed update, sequence numbers),
* piboat/device/device.py            (reconnect backoff, telemetry loop),
* piboat/webrtc/video.py             (SDP codec-compatibility heuristic).

Python floats are modelled as exact rationals; the hardware PWM driver is
modelled as an oracle telling which duty-cycle writes succeed (a failing
write models the driver raising an exception at that point).  Stateful
methods become pure functions from the old state to the new state together
with the visible outputs (return value, duty cycles actually written).
-/

/-! ### motor_controller.py -/

/-- State of a MotorController object: the fields of the Python class that
the embedded methods read or write (the PWM handles themselves are replaced
by the driver-outcome oracle passed to each operation). -/
structure MotorController where
  initialized : Bool
  current_thrust : ℚ
  current_rudder : ℚ
  deriving Repr, DecidableEq

/-- The state produced by the Python constructor: not initialized,
thrust 0, rudder 0. -/
def MotorController.mkInit : MotorController :=
  { initialized := false, current_thrust := 0, current_rudder := 0 }

/-- degrees_to_duty_cycle: map degrees in [-135, 135] linearly to a duty
cycle, clamped to [2.5, 12.5]. -/
def degrees_to_duty_cycle (degrees : ℚ) : ℚ :=
  max 2.5 (min (7.5 + (degrees / 135) * 5) 12.5)

/-- speed_to_duty_cycle: map speed in [-100, 100] linearly to a duty cycle,
clamped to [5.0, 10.0]. -/
def speed_to_duty_cycle (speed : ℚ) : ℚ :=
  max 5 (min (7.5 + (speed / 100) * 2.5) 10)

/-- Result of one actuator-layer operation: the Python return value, the
new object state, and the duty cycles that were actually written to the
PWM driver (in order). -/
structure OpResult where
  success : Bool
  state : MotorController
  writes : List ℚ
  deriving Repr, DecidableEq

/-- MotorController.set_rudder.  The argument drvOk tells whether the
single change_duty_cycle call succeeds; when it raises, the method catches
the exception and returns False without updating current_rudder. -/
def MotorController.set_rudder (m : MotorController) (drvOk : Bool)
    (degrees : ℚ) : OpResult :=
  if m.initialized = false then
    { success := false, state := m, writes := [] }
  else if degrees < -135 ∨ degrees > 135 then
    { success := false, state := m, writes := [] }
  else if drvOk then
    { success := true, state := { m with current_rudder := degrees },
      writes := [degrees_to_duty_cycle degrees] }
  else
    { success := false, state := m, writes := [] }

/-- Truncation toward zero, the semantics of the Python int() conversion
applied to a float. -/
def ratTrunc (q : ℚ) : ℤ :=
  if 0 ≤ q then ⌊q⌋ else ⌈q⌉

/-- The sequence of intermediate throttle values applied by the ramping
loop of set_throttle: for step i (1-based, i = idx+1) the value is
current + i * step_size * direction, except that the last step is the
target itself. -/
def rampValues (current target step_size dir : ℚ) (num_steps : ℕ) : List ℚ :=
  (List.range num_steps).map (fun idx =>
    if idx + 1 < num_steps then current + ((idx : ℚ) + 1) * step_size * dir
    else target)

/-- Number of ramping steps computed by set_throttle:
abs(int(speed_diff / step_size)), replaced by 1 when it is zero. -/
def pythonNumSteps (speed_diff step_size : ℚ) : ℕ :=
  let n0 := (ratTrunc (speed_diff / step_size)).natAbs
  if n0 = 0 then 1 else n0

/-- Step direction computed by set_throttle: 1 if the difference is
positive, otherwise -1. -/
def rampDir (speed_diff : ℚ) : ℚ :=
  if speed_diff > 0 then 1 else -1

/-- Result of set_throttle: return value, new state, duty cycles actually
written, and, when the ramping branch ran, the number of ramp steps and
the delay between steps. -/
structure ThrottleResult where
  success : Bool
  state : MotorController
  writes : List ℚ
  num_steps : Option ℕ
  step_delay : Option ℚ
  deriving Repr, DecidableEq

/-- MotorController.set_throttle.  failAt (some k) means the (k+1)-st
change_duty_cycle call of this invocation raises; the k writes before it
were applied to the hardware.  failAt none means every write succeeds.
The method catches the exception and returns False, leaving current_thrust
at its pre-call value (it is only assigned after all writes succeed). -/
def MotorController.set_throttle (m : MotorController) (failAt : Option ℕ)
    (speed ramp_time step_size : ℚ) : ThrottleResult :=
  if m.initialized = false then
    { success := false, state := m, writes := [], num_steps := none,
      step_delay := none }
  else if speed < -100 ∨ speed > 100 then
    { success := false, state := m, writes := [], num_steps := none,
      step_delay := none }
  else if |speed - m.current_thrust| ≤ step_size then
    -- direct application, a single write
    if failAt = some 0 then
      { success := false, state := m, writes := [], num_steps := none,
        step_delay := none }
    else
      { success := true, state := { m with current_thrust := speed },
        writes := [speed_to_duty_cycle speed], num_steps := none,
        step_delay := none }
  else
    let num_steps : ℕ := pythonNumSteps (speed - m.current_thrust) step_size
    let step_delay : ℚ := ramp_time / (num_steps : ℚ)
    let dir : ℚ := rampDir (speed - m.current_thrust)
    let vals := rampValues m.current_thrust speed step_size dir num_steps
    match failAt with
    | some k =>
      if k < num_steps then
        { success := false, state := m,
          writes := (vals.take k).map speed_to_duty_cycle,
          num_steps := some num_steps, step_delay := some step_delay }
      else
        { success := true, state := { m with current_thrust := speed },
          writes := vals.map speed_to_duty_cycle,
          num_steps := some num_steps, step_delay := some step_delay }
    | none =>
      { success := true, state := { m with current_thrust := speed },
        writes := vals.map speed_to_duty_cycle,
        num_steps := some num_steps, step_delay := some step_delay }

/-- MotorController.stop: set_throttle(0, ramp_time=1.0) with the default
step size 2.0. -/
def MotorController.stop (m : MotorController) (failAt : Option ℕ) :
    ThrottleResult :=
  m.set_throttle failAt 0 1 2

/-- MotorController cleanup (the shutdown method): when initialized, it
first writes the neutral duty cycle and sets current_thrust to 0, then
stops both PWM channels and clears the initialized flag.  failAt (some k)
models an exception at the (k+1)-st of those three hardware actions, after
which the method returns False with the partial state kept. -/
def MotorController.cleanup_hw (m : MotorController) (failAt : Option ℕ) :
    Bool × MotorController :=
  if m.initialized then
    if failAt = some 0 then (false, m)
    else if failAt = some 1 ∨ failAt = some 2 then
      (false, { m with current_thrust := 0 })
    else (true, { m with current_thrust := 0, initialized := false })
  else
    (false, m)

/-- MotorController initialize: on success the PWM channels start and the
initialized flag is set; on an exception the method returns False and the
tracked thrust/rudder fields are untouched. -/
def MotorController.init_hw (m : MotorController) (ok : Bool) :
    Bool × MotorController :=
  if ok then (true, { m with initialized := true }) else (false, m)

/-- The dictionary returned by MotorController.get_motor_status. -/
structure MotorStatus where
  rudder_position : ℚ
  throttle : ℚ
  initialized : Bool
  deriving Repr, DecidableEq

/-- MotorController.get_motor_status. -/
def MotorController.get_motor_status (m : MotorController) : MotorStatus :=
  { rudder_position := m.current_rudder, throttle := m.current_thrust,
    initialized := m.initialized }

/-- One operation of the MotorController public interface, together with
the driver outcomes observed during it. -/
inductive MotorOp where
  | opInit (ok : Bool)
  | opSetRudder (drvOk : Bool) (degrees : ℚ)
  | opSetThrottle (failAt : Option ℕ) (speed ramp_time step_size : ℚ)
  | opStop (failAt : Option ℕ)
  | opCleanup (failAt : Option ℕ)

/-- State transition of one MotorController operation. -/
def applyMotorOp (m : MotorController) : MotorOp → MotorController
  | .opInit ok => (m.init_hw ok).2
  | .opSetRudder drvOk d => (m.set_rudder drvOk d).state
  | .opSetThrottle f s rt ss => (m.set_throttle f s rt ss).state
  | .opStop f => (m.stop f).state
  | .opCleanup f => (m.cleanup_hw f).2

/-- Run a sequence of MotorController operations from a starting state. -/
def runMotorOps (m : MotorController) (ops : List MotorOp) : MotorController :=
  ops.foldl applyMotorOp m

/-- The physical bounds the specification asserts for MotorState. -/
def MotorBounds (m : MotorController) : Prop :=
  -135 ≤ m.current_rudder ∧ m.current_rudder ≤ 135 ∧
    -100 ≤ m.current_thrust ∧ m.current_thrust ≤ 100

instance : DecidablePred MotorBounds := fun m => by
  unfold MotorBounds; infer_instance


/-- Unfolding lemma for set_throttle in the ramping regime when every
driver write succeeds. -/
theorem set_throttle_ramp_none (m : MotorController) (s rt ss : ℚ)
    (h1 : m.initialized = true) (h2 : ¬(s < -100 ∨ s > 100))
    (h3 : ¬|s - m.current_thrust| ≤ ss) :
    m.set_throttle none s rt ss =
      { success := true, state := { m with current_thrust := s },
        writes := (rampValues m.current_thrust s ss
          (rampDir (s - m.current_thrust))
          (pythonNumSteps (s - m.current_thrust) ss)).map speed_to_duty_cycle,
        num_steps := some (pythonNumSteps (s - m.current_thrust) ss),
        step_delay := some
          (rt / (pythonNumSteps (s - m.current_thrust) ss : ℚ)) } := by
  rw [MotorController.set_throttle, if_neg (by simp [h1]), if_neg h2,
    if_neg h3]

/-- Unfolding lemma for set_throttle in the ramping regime when the driver
raises at the (k+1)-st write with k below the step count: the call fails,
the first k duty cycles were applied, and the state is unchanged. -/
theorem set_throttle_ramp_fail (m : MotorController) (k : ℕ) (s rt ss : ℚ)
    (h1 : m.initialized = true) (h2 : ¬(s < -100 ∨ s > 100))
    (h3 : ¬|s - m.current_thrust| ≤ ss)
    (hk : k < pythonNumSteps (s - m.current_thrust) ss) :
    m.set_throttle (some k) s rt ss =
      { success := false, state := m,
        writes := ((rampValues m.current_thrust s ss
          (rampDir (s - m.current_thrust))
          (pythonNumSteps (s - m.current_thrust) ss)).take k).map
            speed_to_duty_cycle,
        num_steps := some (pythonNumSteps (s - m.current_thrust) ss),
        step_delay := some
          (rt / (pythonNumSteps (s - m.current_thrust) ss : ℚ)) } := by
  rw [MotorController.set_throttle, if_neg (by simp [h1]), if_neg h2,
    if_neg h3]
  exact if_pos hk

/-- Unfolding lemma for set_throttle in the direct regime (difference at
most step_size) when the single driver write succeeds. -/
theorem set_throttle_direct_eq (m : MotorController) (failAt : Option ℕ)
    (s rt ss : ℚ) (h1 : m.initialized = true) (h2 : ¬(s < -100 ∨ s > 100))
    (h3 : |s - m.current_thrust| ≤ ss) (hf : ¬failAt = some 0) :
    m.set_throttle failAt s rt ss =
      { success := true, state := { m with current_thrust := s },
        writes := [speed_to_duty_cycle s], num_steps := none,
        step_delay := none } := by
  rw [MotorController.set_throttle, if_neg (by simp [h1]), if_neg h2,
    if_pos h3, if_neg hf]

/-- The state after set_rudder is either unchanged or has current_rudder
set to an in-range degree value. -/
theorem set_rudder_state_cases (m : MotorController) (drvOk : Bool) (d : ℚ) :
    (m.set_rudder drvOk d).state = m ∨
      ((m.set_rudder drvOk d).state = { m with current_rudder := d } ∧
        -135 ≤ d ∧ d ≤ 135) := by
  unfold MotorController.set_rudder
  split_ifs with h1 h2 h3
  · exact Or.inl rfl
  · exact Or.inl rfl
  · push_neg at h2
    exact Or.inr ⟨rfl, h2.1, h2.2⟩
  · exact Or.inl rfl

/-- The state after set_throttle is either unchanged or has current_thrust
set to an in-range speed value. -/
theorem set_throttle_state_cases (m : MotorController) (f : Option ℕ)
    (s rt ss : ℚ) :
    (m.set_throttle f s rt ss).state = m ∨
      ((m.set_throttle f s rt ss).state = { m with current_thrust := s } ∧
        -100 ≤ s ∧ s ≤ 100) := by
  unfold MotorController.set_throttle
  split_ifs with h1 h2 h3 h4
  · exact Or.inl rfl
  · exact Or.inl rfl
  · exact Or.inl rfl
  · push_neg at h2
    exact Or.inr ⟨rfl, h2.1, h2.2⟩
  · push_neg at h2
    rcases f with _ | k
    · exact Or.inr ⟨rfl, h2.1, h2.2⟩
    · dsimp only
      split_ifs with hk
      · exact Or.inl rfl
      · exact Or.inr ⟨rfl, h2.1, h2.2⟩

/-- Every single MotorController operation preserves the physical bounds. -/
theorem applyMotorOp_bounds (m : MotorController) (op : MotorOp)
    (h : MotorBounds m) : MotorBounds (applyMotorOp m op) := by
  obtain ⟨hr1, hr2, ht1, ht2⟩ := h
  cases op with
  | opInit ok =>
    simp only [applyMotorOp, MotorController.init_hw]
    split_ifs <;> exact ⟨hr1, hr2, ht1, ht2⟩
  | opSetRudder drvOk d =>
    simp only [applyMotorOp]
    rcases set_rudder_state_cases m drvOk d with h | ⟨h, hd1, hd2⟩
    · rw [h]; exact ⟨hr1, hr2, ht1, ht2⟩
    · rw [h]; exact ⟨hd1, hd2, ht1, ht2⟩
  | opSetThrottle f s rt ss =>
    simp only [applyMotorOp]
    rcases set_throttle_state_cases m f s rt ss with h | ⟨h, hs1, hs2⟩
    · rw [h]; exact ⟨hr1, hr2, ht1, ht2⟩
    · rw [h]; exact ⟨hr1, hr2, hs1, hs2⟩
  | opStop f =>
    simp only [applyMotorOp, MotorController.stop]
    rcases set_throttle_state_cases m f 0 1 2 with h | ⟨h, hs1, hs2⟩
    · rw [h]; exact ⟨hr1, hr2, ht1, ht2⟩
    · rw [h]; exact ⟨hr1, hr2, hs1, hs2⟩
  | opCleanup f =>
    simp only [applyMotorOp, MotorController.cleanup_hw]
    split_ifs
    · exact ⟨hr1, hr2, ht1, ht2⟩
    · exact ⟨hr1, hr2, by norm_num, by norm_num⟩
    · exact ⟨hr1, hr2, by norm_num, by norm_num⟩
    · exact ⟨hr1, hr2, ht1, ht2⟩

/-- Bounds are preserved along any operation sequence. -/
theorem runMotorOps_bounds (ops : List MotorOp) :
    ∀ m : MotorController, MotorBounds m → MotorBounds (runMotorOps m ops) := by
  induction ops with
  | nil => intro m h; exact h
  | cons op rest ih =>
    intro m h
    exact ih (applyMotorOp m op) (applyMotorOp_bounds m op h)

/-- C1: for every sequence of MotorController operations (initialize,
set_rudder, set_throttle, stop, cleanup) starting from the constructor
state, current_rudder stays within [-135, 135] degrees and current_thrust
stays within [-100, 100] percent; and a set_rudder or set_throttle request
outside those bounds is rejected (returns False) without mutating either
field. -/
theorem C1_motor_state_bounds :
    (∀ ops : List MotorOp, MotorBounds (runMotorOps MotorController.mkInit ops))
    ∧ (∀ (m : MotorController) (drvOk : Bool) (d : ℚ),
        (d < -135 ∨ d > 135) →
        m.set_rudder drvOk d = { success := false, state := m, writes := [] })
    ∧ (∀ (m : MotorController) (f : Option ℕ) (s rt ss : ℚ),
        (s < -100 ∨ s > 100) →
        m.set_throttle f s rt ss =
          { success := false, state := m, writes := [], num_steps := none,
            step_delay := none }) := by
  refine ⟨?_, ?_, ?_⟩
  · intro ops
    exact runMotorOps_bounds ops MotorController.mkInit
      (by unfold MotorController.mkInit MotorBounds; norm_num)
  · intro m drvOk d hd
    unfold MotorController.set_rudder
    split_ifs with h1 <;> rfl
  · intro m f s rt ss hs
    unfold MotorController.set_throttle
    split_ifs with h1 <;> rfl

/-- Witness for C1 at concrete inputs: a concrete operation sequence keeps
the bounds, and concrete out-of-range requests are rejected unchanged. -/
theorem C1_motor_state_bounds_witness :
    MotorBounds (runMotorOps MotorController.mkInit
      [MotorOp.opInit true, MotorOp.opSetRudder true 30,
        MotorOp.opSetThrottle none 50 1 2])
    ∧ MotorController.mkInit.set_rudder true 140 =
        { success := false, state := MotorController.mkInit, writes := [] }
    ∧ MotorController.mkInit.set_throttle none 101 1 2 =
        { success := false, state := MotorController.mkInit, writes := [],
          num_steps := none, step_delay := none } :=
  ⟨C1_motor_state_bounds.1 _,
    C1_motor_state_bounds.2.1 _ _ _ (by norm_num),
    C1_motor_state_bounds.2.2 _ _ _ _ _ (by norm_num)⟩

/-! ### commands.py -/

/-- The data dictionary of a command: the fields handle_command reads
(absent keys are modelled as none; the handler substitutes defaults). -/
structure CmdData where
  position : Option ℚ
  throttle : Option ℚ
  ramp_time : Option ℚ
  deriving Repr, DecidableEq

/-- An inbound command message: optional command_id, optional command type
string, and the data dictionary. -/
structure Command where
  command_id : Option String
  command : Option String
  data : CmdData
  deriving Repr, DecidableEq

/-- A command_ack message. -/
structure Ack where
  command_id : String
  status : String
  message : Option String
  deriving Repr, DecidableEq

/-- CommandHandler.acknowledge_command: builds the single ack, correlated
by command_id with the fixed fallback id "unknown" when the inbound
command carried none. -/
def acknowledge_command (cmd : Command) (status : String)
    (message : Option String) : Ack :=
  { command_id := cmd.command_id.getD "unknown", status := status,
    message := message }

/-- Driver outcomes observed while one command is processed: whether the
rudder duty-cycle write succeeds, and at which throttle write (if any) the
driver raises. -/
structure DriverOutcome where
  rudderOk : Bool
  throttleFail : Option ℕ
  deriving Repr, DecidableEq

/-- Intermediate result of the dispatch part of handle_command, before the
acknowledgement is sent. -/
structure ProcResult where
  status : String
  message : Option String
  state : MotorController
  writes : List ℚ
  deriving Repr, DecidableEq

/-- The dispatch part of CommandHandler.handle_command: validates and
executes one command against the motor controller.  hasMC models
motor_controller_initialized (a motor controller instance was provided);
max_rudder_angle models the MAX_RUDDER_ANGLE configuration (default 45). -/
def process_command (max_rudder_angle : ℚ) (hasMC : Bool)
    (m : MotorController) (drv : DriverOutcome) (cmd : Command) :
    ProcResult :=
  if hasMC = false then
    { status := "rejected",
      message := some "Motor controller not initialized", state := m,
      writes := [] }
  else if cmd.command = some "set_rudder" then
    let normalized_position := max (-100) (min (cmd.data.position.getD 0) 100)
    let degrees := normalized_position / 100 * max_rudder_angle
    let r := m.set_rudder drv.rudderOk degrees
    { status := if r.success then "accepted" else "rejected",
      message :=
        if r.success then none else some "Failed to set rudder position",
      state := r.state, writes := r.writes }
  else if cmd.command = some "set_throttle" then
    let r := m.set_throttle drv.throttleFail (cmd.data.throttle.getD 0)
      (cmd.data.ramp_time.getD 1) 2
    { status := if r.success then "accepted" else "rejected",
      message := if r.success then none else some "Failed to set throttle",
      state := r.state, writes := r.writes }
  else if cmd.command = some "stop" then
    let r1 := m.set_rudder drv.rudderOk 0
    let r2 := r1.state.set_throttle drv.throttleFail 0 1 2
    let success := r2.success && r1.success
    { status := if success then "accepted" else "rejected",
      message :=
        if success then none
        else if r1.success = false then some "Failed to center rudder"
        else if r2.success = false then some "Failed to stop motors"
        else some "Failed to execute stop command",
      state := r2.state, writes := r1.writes ++ r2.writes }
  else
    { status := "rejected",
      message := some ("Unknown command type: " ++ cmd.command.getD "None"),
      state := m, writes := [] }

/-- Result of CommandHandler.handle_command: the acks sent on the socket,
the resulting motor state, and the duty cycles written to the driver. -/
structure HandleResult where
  acks : List Ack
  state : MotorController
  writes : List ℚ
  deriving Repr, DecidableEq

/-- CommandHandler.handle_command: logs the command, dispatches it, and
sends exactly one acknowledgement at the end. -/
def handle_command (max_rudder_angle : ℚ) (hasMC : Bool)
    (m : MotorController) (drv : DriverOutcome) (cmd : Command) :
    HandleResult :=
  let r := process_command max_rudder_angle hasMC m drv cmd
  { acks := [acknowledge_command cmd r.status r.message], state := r.state,
    writes := r.writes }

/-- C7: every received command, whatever its outcome (accepted, rejected,
unknown type, uninitialized motor controller), produces exactly one
command_ack, and that ack carries the command's command_id, with the fixed
fallback id "unknown" when the command carries no command_id. -/
theorem C7_exactly_one_ack (max_rudder_angle : ℚ) (hasMC : Bool)
    (m : MotorController) (drv : DriverOutcome) (cmd : Command) :
    (handle_command max_rudder_angle hasMC m drv cmd).acks.map
      Ack.command_id = [cmd.command_id.getD "unknown"] := rfl

/-- Unfolding lemma for set_rudder when initialized, in range, and the
driver write succeeds. -/
theorem set_rudder_ok_eq (m : MotorController) (d : ℚ)
    (h1 : m.initialized = true) (h2 : ¬(d < -135 ∨ d > 135)) :
    m.set_rudder true d =
      { success := true, state := { m with current_rudder := d },
        writes := [degrees_to_duty_cycle d] } := by
  rw [MotorController.set_rudder, if_neg (by simp [h1]), if_neg h2,
    if_pos rfl]

/-- A set_rudder command message carrying the given normalized position. -/
def rudderCmd (pos : ℚ) : Command :=
  { command_id := none, command := some "set_rudder",
    data := { position := some pos, throttle := none, ramp_time := none } }

/-- The degrees value handle_command derives from a normalized rudder
position: clamp to [-100, 100], then scale by max_rudder_angle / 100. -/
theorem clamped_degrees_bounds (pos : ℚ) :
    ¬(max (-100) (min pos 100) / 100 * 45 < -135 ∨
      max (-100) (min pos 100) / 100 * 45 > 135) := by
  push_neg
  have h1 : (-100 : ℚ) ≤ max (-100) (min pos 100) := le_max_left _ _
  have h2 : max (-100) (min pos 100) ≤ 100 :=
    max_le (by norm_num) (min_le_right _ _)
  constructor <;> nlinarith

/-- Evaluation of a set_rudder command at max_rudder_angle 45 with an
initialized controller and a successful driver write. -/
theorem handle_rudder_eq (m : MotorController) (pos : ℚ)
    (hinit : m.initialized = true) :
    handle_command 45 true m { rudderOk := true, throttleFail := none }
        (rudderCmd pos) =
      { acks := [Ack.mk "unknown" "accepted" none],
        state := { m with
          current_rudder := max (-100) (min pos 100) / 100 * 45 },
        writes :=
          [degrees_to_duty_cycle (max (-100) (min pos 100) / 100 * 45)] } := by
  simp [handle_command, process_command, rudderCmd, acknowledge_command,
    MotorController.set_rudder, hinit, clamped_degrees_bounds pos]

/-- C2: a set_rudder command with max_rudder_angle 45 and an initialized
controller is acknowledged as accepted; the controller receives exactly
degrees = clamp(position, -100, 100) / 100 * 45, further clamped to the
driver hard limits [-135, 135] (a no-op here), and writes the
corresponding duty cycle; the mapping is monotonic in position; and
position 100 yields exactly 45 degrees. -/
theorem C2_rudder_mapping (m : MotorController) (pos p q : ℚ)
    (hinit : m.initialized = true) (hpq : p ≤ q) :
    ((handle_command 45 true m { rudderOk := true, throttleFail := none }
        (rudderCmd pos)).acks.map Ack.status = ["accepted"])
    ∧ (handle_command 45 true m { rudderOk := true, throttleFail := none }
        (rudderCmd pos)).state.current_rudder =
        max (-135) (min (max (-100) (min pos 100) / 100 * 45) 135)
    ∧ (handle_command 45 true m { rudderOk := true, throttleFail := none }
        (rudderCmd pos)).writes =
        [degrees_to_duty_cycle (max (-100) (min pos 100) / 100 * 45)]
    ∧ (handle_command 45 true m { rudderOk := true, throttleFail := none }
        (rudderCmd p)).state.current_rudder ≤
      (handle_command 45 true m { rudderOk := true, throttleFail := none }
        (rudderCmd q)).state.current_rudder
    ∧ (handle_command 45 true m { rudderOk := true, throttleFail := none }
        (rudderCmd 100)).state.current_rudder = 45 := by
  have hb : ∀ x : ℚ, (-100 : ℚ) ≤ max (-100) (min x 100) ∧
      max (-100) (min x 100) ≤ 100 := fun x =>
    ⟨le_max_left _ _, max_le (by norm_num) (min_le_right _ _)⟩
  refine ⟨?_, ?_, ?_, ?_, ?_⟩
  · rw [handle_rudder_eq m pos hinit]
    rfl
  · rw [handle_rudder_eq m pos hinit]
    have h1 := (hb pos).1
    have h2 := (hb pos).2
    have hlo : (-135 : ℚ) ≤ max (-100) (min pos 100) / 100 * 45 := by
      nlinarith
    have hhi : max (-100) (min pos 100) / 100 * 45 ≤ 135 := by nlinarith
    rw [min_eq_left hhi, max_eq_right hlo]
  · rw [handle_rudder_eq m pos hinit]
  · rw [handle_rudder_eq m p hinit, handle_rudder_eq m q hinit]
    have hmono : max (-100) (min p 100) ≤ max (-100) (min q 100) :=
      max_le_max le_rfl (min_le_min hpq le_rfl)
    show max (-100) (min p 100) / 100 * 45 ≤ max (-100) (min q 100) / 100 * 45
    linarith
  · rw [handle_rudder_eq m 100 hinit]
    norm_num

/-- Witness for C2 at a concrete state and positions. -/
theorem C2_rudder_mapping_witness :
    (MotorController.mk true 0 0).initialized = true ∧ (30 : ℚ) ≤ 60 ∧
    (((handle_command 45 true (MotorController.mk true 0 0)
        { rudderOk := true, throttleFail := none }
        (rudderCmd 80)).acks.map Ack.status = ["accepted"])
      ∧ (handle_command 45 true (MotorController.mk true 0 0)
          { rudderOk := true, throttleFail := none }
          (rudderCmd 80)).state.current_rudder =
          max (-135) (min (max (-100) (min 80 100) / 100 * 45) 135)
      ∧ (handle_command 45 true (MotorController.mk true 0 0)
          { rudderOk := true, throttleFail := none }
          (rudderCmd 80)).writes =
          [degrees_to_duty_cycle (max (-100) (min 80 100) / 100 * 45)]
      ∧ (handle_command 45 true (MotorController.mk true 0 0)
          { rudderOk := true, throttleFail := none }
          (rudderCmd 30)).state.current_rudder ≤
        (handle_command 45 true (MotorController.mk true 0 0)
          { rudderOk := true, throttleFail := none }
          (rudderCmd 60)).state.current_rudder
      ∧ (handle_command 45 true (MotorController.mk true 0 0)
          { rudderOk := true, throttleFail := none }
          (rudderCmd 100)).state.current_rudder = 45) :=
  ⟨rfl, by norm_num,
    C2_rudder_mapping (MotorController.mk true 0 0) 80 30 60 rfl
      (by norm_num)⟩

/-- Length of the ramp value list is the step count. -/
theorem rampValues_length (c t ss d : ℚ) (n : ℕ) :
    (rampValues c t ss d n).length = n := by
  simp [rampValues]

/-- The last element of List.range n for positive n. -/
theorem range_getLast (n : ℕ) (hn : 1 ≤ n) :
    (List.range n).getLast? = some (n - 1) := by
  rw [List.getLast?_eq_getElem?]
  simp only [List.length_range]
  rw [List.getElem?_range (by omega)]

/-- The last ramp value is exactly the requested target. -/
theorem rampValues_getLast (c t ss d : ℚ) (n : ℕ) (hn : 1 ≤ n) :
    (rampValues c t ss d n).getLast? = some t := by
  unfold rampValues
  rw [List.getLast?_map, range_getLast n hn]
  simp only [Option.map_some']
  rw [if_neg (by omega)]

/-- In the ramping regime (0 < step_size < distance), the step count that
set_throttle computes, abs(int(diff / step_size)), equals the floor of
distance / step_size, and it is at least 1. -/
theorem pythonNumSteps_eq (d ss : ℚ) (hss : 0 < ss) (h : ss < |d|) :
    pythonNumSteps d ss = (⌊|d| / ss⌋).toNat ∧ 1 ≤ (⌊|d| / ss⌋).toNat := by
  have h1 : (1 : ℚ) < |d| / ss := (one_lt_div hss).mpr h
  have hfl : 1 ≤ ⌊|d| / ss⌋ := by
    rw [Int.le_floor]
    exact_mod_cast h1.le
  have habs : (ratTrunc (d / ss)).natAbs = (⌊|d| / ss⌋).toNat := by
    rcases le_or_lt 0 d with hd | hd
    · have hq : 0 ≤ d / ss := div_nonneg hd hss.le
      rw [ratTrunc, if_pos hq, abs_of_nonneg hd]
      have h0 : 0 ≤ ⌊d / ss⌋ := Int.floor_nonneg.mpr hq
      omega
    · have hq : d / ss < 0 := div_neg_of_neg_of_pos hd hss
      rw [ratTrunc, if_neg (not_le.mpr hq), abs_of_neg hd]
      have hneg : ⌊-d / ss⌋ = -⌈d / ss⌉ := by rw [neg_div, Int.floor_neg]
      rw [hneg]
      have hc : ⌈d / ss⌉ ≤ 0 := Int.ceil_le.mpr (by exact_mod_cast hq.le)
      omega
  constructor
  · simp only [pythonNumSteps, habs]
    rw [if_neg (by omega)]
  · omega

/-- C3 (amended): in the ramping regime the number of driver writes is
floor of distance over step_size (the code truncates with int(), it does
not take the ceiling); the cadence is ramp_time divided by that count; the
intermediate writes walk linearly from the current value toward the
target; and the final applied value is exactly the requested target. -/
theorem C3_throttle_ramp_floor (m : MotorController) (s rt ss : ℚ)
    (h1 : m.initialized = true) (hlo : -100 ≤ s) (hhi : s ≤ 100)
    (hss : 0 < ss) (hgap : ss < |s - m.current_thrust|) :
    (m.set_throttle none s rt ss).success = true
    ∧ (m.set_throttle none s rt ss).writes.length
        = (⌊|s - m.current_thrust| / ss⌋).toNat
    ∧ (m.set_throttle none s rt ss).num_steps
        = some ((⌊|s - m.current_thrust| / ss⌋).toNat)
    ∧ (m.set_throttle none s rt ss).step_delay
        = some (rt / (((⌊|s - m.current_thrust| / ss⌋).toNat : ℕ) : ℚ))
    ∧ (m.set_throttle none s rt ss).writes
        = (rampValues m.current_thrust s ss (rampDir (s - m.current_thrust))
            ((⌊|s - m.current_thrust| / ss⌋).toNat)).map speed_to_duty_cycle
    ∧ (m.set_throttle none s rt ss).state.current_thrust = s
    ∧ (m.set_throttle none s rt ss).writes.getLast?
        = some (speed_to_duty_cycle s) := by
  have h2 : ¬(s < -100 ∨ s > 100) := by push_neg; exact ⟨hlo, hhi⟩
  have h3 : ¬|s - m.current_thrust| ≤ ss := not_le.mpr hgap
  obtain ⟨hn, hn1⟩ := pythonNumSteps_eq (s - m.current_thrust) ss hss hgap
  rw [set_throttle_ramp_none m s rt ss h1 h2 h3, hn]
  refine ⟨rfl, ?_, rfl, rfl, rfl, rfl, ?_⟩
  · rw [List.length_map, rampValues_length]
  · rw [List.getLast?_map, rampValues_getLast _ _ _ _ _ hn1]
    rfl

/-- Witness for C3 at a concrete ramp: from thrust 0 to 50 with step 2 and
ramp time 1, the number of writes is floor(50 / 2) = 25. -/
theorem C3_throttle_ramp_floor_witness :
    ((MotorController.mk true 0 0).set_throttle none 50 1 2).writes.length
      = (⌊|(50 : ℚ) - (MotorController.mk true 0 0).current_thrust| / 2⌋).toNat :=
  (C3_throttle_ramp_floor (MotorController.mk true 0 0) 50 1 2 rfl
    (by norm_num) (by norm_num) (by norm_num) (by norm_num)).2.1

/-- C3 counterexample to the claim as stated: ramping from 0 to 5 with
step_size 2 performs int(5 / 2) = 2 driver writes, not ceil(5 / 2) = 3 as
the claim asserts. -/
theorem C3_ceil_counterexample :
    ¬(((MotorController.mk true 0 0).set_throttle none 5 1 2).writes.length
        = (⌈|(5 : ℚ) - (MotorController.mk true 0 0).current_thrust| / 2⌉).toNat) := by
  have he := set_throttle_ramp_none (MotorController.mk true 0 0) 5 1 2 rfl
    (by norm_num) (by norm_num)
  rw [he]
  have hn : pythonNumSteps ((5 : ℚ) - (MotorController.mk true 0 0).current_thrust) 2 = 2 := by
    norm_num [pythonNumSteps, ratTrunc]
  rw [List.length_map, rampValues_length, hn]
  have hc : (⌈|(5 : ℚ) - (MotorController.mk true 0 0).current_thrust| / 2⌉)
      = (3 : ℤ) := by
    rw [show |(5 : ℚ) - (MotorController.mk true 0 0).current_thrust| / 2
        = 5 / 2 by norm_num]
    rw [Int.ceil_eq_iff]
    norm_num
  rw [hc]
  decide

/-- C10: when a driver write raises partway through a throttle ramp, after
k intermediate duty cycles were already applied, set_throttle returns
False and current_thrust keeps its pre-call value, so get_motor_status
(and hence telemetry) reports the pre-command throttle. -/
theorem C10_ramp_exception_keeps_thrust (m : MotorController) (k : ℕ)
    (s rt ss : ℚ) (h1 : m.initialized = true) (hlo : -100 ≤ s)
    (hhi : s ≤ 100) (hss : 0 < ss) (hgap : ss < |s - m.current_thrust|)
    (hk : k < pythonNumSteps (s - m.current_thrust) ss) :
    (m.set_throttle (some k) s rt ss).success = false
    ∧ (m.set_throttle (some k) s rt ss).state = m
    ∧ (m.set_throttle (some k) s rt ss).writes.length = k
    ∧ (m.set_throttle (some k) s rt ss).state.get_motor_status.throttle
        = m.current_thrust := by
  have h2 : ¬(s < -100 ∨ s > 100) := by push_neg; exact ⟨hlo, hhi⟩
  have h3 : ¬|s - m.current_thrust| ≤ ss := not_le.mpr hgap
  rw [set_throttle_ramp_fail m k s rt ss h1 h2 h3 hk]
  refine ⟨rfl, rfl, ?_, rfl⟩
  rw [List.length_map, List.length_take, rampValues_length]
  omega

/-- Witness for C10: ramping from 0 toward 50 with step 2, the driver
raises at the 4th write; the call fails with 3 writes applied and the
reported throttle is the pre-call value 0. -/
theorem C10_ramp_exception_keeps_thrust_witness :
    ((MotorController.mk true 0 0).set_throttle (some 3) 50 1 2).success = false
    ∧ ((MotorController.mk true 0 0).set_throttle (some 3) 50 1 2).state
        = MotorController.mk true 0 0
    ∧ ((MotorController.mk true 0 0).set_throttle (some 3) 50 1 2).writes.length = 3
    ∧ ((MotorController.mk true 0 0).set_throttle
        (some 3) 50 1 2).state.get_motor_status.throttle
        = (MotorController.mk true 0 0).current_thrust :=
  C10_ramp_exception_keeps_thrust (MotorController.mk true 0 0) 3 50 1 2 rfl
    (by norm_num) (by norm_num) (by norm_num) (by norm_num)
    (by norm_num [pythonNumSteps, ratTrunc])

/-! ### telemetry.py -/

/-- Python float modulo with a positive modulus:
x % y = x - y * floor(x / y). -/
def pyMod (x y : ℚ) : ℚ := x - y * ⌊x / y⌋

/-- The compass-heading smoothing step of update_position (the branch
where a previous heading exists): wraparound adjustment of one side when
the absolute difference exceeds 180, exponential blend with alpha 0.3,
then normalization modulo 360. -/
def headingUpdate (prev compass_heading : ℚ) : ℚ :=
  let adjusted_prev :=
    if |compass_heading - prev| > 180 then
      if compass_heading > prev then prev + 360 else prev
    else prev
  let adjusted_new :=
    if |compass_heading - prev| > 180 then
      if compass_heading > prev then compass_heading else compass_heading + 360
    else compass_heading
  pyMod (0.3 * adjusted_new + (1 - 0.3) * adjusted_prev) 360

/-- Modelled from the spec's words (heading fusion step): exponential
smoothing heading = alpha * new + (1 - alpha) * prev with alpha = 0.3,
after adding 360 degrees to the smaller-valued side whenever
|new - prev| > 180, with the result normalized to [0, 360). -/
def headingUpdateSpec (prev new : ℚ) : ℚ :=
  let p := if |new - prev| > 180 ∧ prev < new then prev + 360 else prev
  let n := if |new - prev| > 180 ∧ new < prev then new + 360 else new
  pyMod (0.3 * n + (1 - 0.3) * p) 360

/-- The code's heading smoothing agrees with the spec formula. -/
theorem headingUpdate_eq_spec (prev new : ℚ) :
    headingUpdate prev new = headingUpdateSpec prev new := by
  unfold headingUpdate headingUpdateSpec
  by_cases h : |new - prev| > 180
  · by_cases h2 : new > prev
    · rw [if_pos h, if_pos h, if_pos h2, if_pos h2, if_pos ⟨h, h2⟩,
        if_neg (by push_neg; intro _; linarith)]
    · have hne : new ≠ prev := by
        intro he
        rw [he] at h
        simp at h
        linarith
      have hlt : new < prev := lt_of_le_of_ne (not_lt.mp h2) hne
      rw [if_pos h, if_pos h, if_neg h2, if_neg h2,
        if_neg (by push_neg; intro _; linarith), if_pos ⟨h, hlt⟩]
  · rw [if_neg h, if_neg h, if_neg (fun hc => h hc.1),
      if_neg (fun hc => h hc.1)]

/-- Python float modulo by 360 lands in [0, 360). -/
theorem pyMod_bounds (x : ℚ) : 0 ≤ pyMod x 360 ∧ pyMod x 360 < 360 := by
  unfold pyMod
  have h1 : ((⌊x / 360⌋ : ℚ)) ≤ x / 360 := Int.floor_le _
  have h2 : x / 360 < ⌊x / 360⌋ + 1 := Int.lt_floor_add_one _
  have h3 : x / 360 * 360 = x := div_mul_cancel₀ x (by norm_num)
  constructor <;> nlinarith

/-- The GPS snapshot dictionary as read by update_position (the fields it
uses, plus the course field it receives but never reads for heading). -/
structure GPSData where
  has_fix : Bool
  latitude : Option ℚ
  longitude : Option ℚ
  speed_knots : Option ℚ
  course : Option ℚ
  deriving Repr, DecidableEq

/-- The TelemetryGenerator state fields that update_position reads or
writes. -/
structure TelemetryState where
  latitude : Option ℚ
  longitude : Option ℚ
  heading : Option ℚ
  speed : ℚ
  battery : ℚ
  deriving Repr, DecidableEq

/-- TelemetryGenerator.update_position: smooth the compass heading when a
compass is connected (heading is untouched otherwise); adopt GPS position
directly and smooth speed when a fix with coordinates is available; then
apply the battery drain, clamped at 0.  compassConnected models
(self.compass and self.compass.connected); gps none models a missing GPS
handler. -/
def update_position (st : TelemetryState) (compassConnected : Bool)
    (compass_heading : ℚ) (gps : Option GPSData) : TelemetryState :=
  let st1 :=
    if compassConnected then
      match st.heading with
      | none => { st with heading := some compass_heading }
      | some prev =>
        { st with heading := some (headingUpdate prev compass_heading) }
    else st
  let st2 :=
    match gps with
    | some g =>
      if g.has_fix = true ∧ g.latitude ≠ none ∧ g.longitude ≠ none then
        let stp := { st1 with latitude := g.latitude,
                              longitude := g.longitude }
        match g.speed_knots with
        | some sk => { stp with speed := 0.3 * sk + (1 - 0.3) * stp.speed }
        | none => stp
      else st1
    | none => st1
  { st2 with battery := max 0 (st2.battery - 0.01) }

/-- C4: the heading update of a fusion cycle with a connected compass and
an existing previous heading is exactly the spec formula (alpha blend with
alpha = 0.3 after adding 360 to the smaller-valued side when the absolute
difference exceeds 180 degrees), normalized into [0, 360); and for
prev = 359, new = 2 the smoothed result is 359.9, i.e. within 0.1 degree
of the 0/360 boundary (angularly near 0-1 degrees) and 179.9 degrees away
from 180. -/
theorem C4_heading_wraparound :
    (∀ prev ch : ℚ, headingUpdate prev ch = headingUpdateSpec prev ch)
    ∧ (∀ prev ch : ℚ,
        0 ≤ headingUpdate prev ch ∧ headingUpdate prev ch < 360)
    ∧ (∀ (lat lon : Option ℚ) (prev speed battery ch : ℚ)
        (gps : Option GPSData),
        (update_position (TelemetryState.mk lat lon (some prev) speed battery)
          true ch gps).heading = some (headingUpdate prev ch))
    ∧ headingUpdate 359 2 = 3599 / 10
    ∧ 360 - headingUpdate 359 2 ≤ 1
    ∧ 90 ≤ |headingUpdate 359 2 - 180| := by
  have hex : headingUpdate 359 2 = 3599 / 10 := by
    norm_num [headingUpdate, pyMod]
  refine ⟨headingUpdate_eq_spec, ?_, ?_, hex, ?_, ?_⟩
  · intro prev ch
    exact pyMod_bounds _
  · intro lat lon prev speed battery ch gps
    rcases gps with _ | g
    · simp [update_position]
    · rcases g with ⟨fix, la, lo, sk, co⟩
      rcases sk with _ | sk <;>
        simp [update_position] <;> split_ifs <;> simp
  · rw [hex]; norm_num
  · rw [hex, abs_of_nonneg (by norm_num : (0 : ℚ) ≤ 3599 / 10 - 180)]
    norm_num

/-- C8 (amended): when no compass is present or the compass is not
connected during a fusion cycle, update_position leaves the heading
completely unchanged (the last compass-derived value, or None if there
never was one); no GPS-course-derived or dead-reckoning fallback exists in
the code. -/
theorem C8_no_heading_fallback (st : TelemetryState) (ch : ℚ)
    (gps : Option GPSData) :
    (update_position st false ch gps).heading = st.heading := by
  rcases gps with _ | g
  · simp [update_position]
  · rcases g with ⟨fix, la, lo, sk, co⟩
    rcases sk with _ | sk <;>
      simp [update_position] <;> split_ifs <;> simp

/-- C8 counterexample to the claim as stated: a fusion cycle with no
compass, a valid GPS fix and a GPS course of 45 degrees still reports no
heading at all (heading stays None), instead of falling back to a
GPS-course-derived heading or a dead-reckoning estimate. -/
theorem C8_counterexample :
    (update_position (TelemetryState.mk none none none 0 100) false 0
      (some (GPSData.mk true (some 1) (some 2) (some 3) (some 45)))).heading
      = none
    ∧ ¬((update_position (TelemetryState.mk none none none 0 100) false 0
        (some (GPSData.mk true (some 1) (some 2) (some 3)
          (some 45)))).heading = some 45) := by
  constructor
  · simp [update_position]
  · simp [update_position]

/-! ### device.py : telemetry loop sequence numbers -/

/-- Outcome of one websocket.send of a server-telemetry sample in
telemetry_loop: success, a non-fatal send failure (logged, loop
continues), or ConnectionClosed (loop exits to trigger reconnection). -/
inductive SendOutcome where
  | ok
  | sendFail
  | closed
  deriving Repr, DecidableEq

/-- Sequence-relevant state across telemetry_loop iterations: the
telemetry_sequence counter of the TelemetryGenerator, the sequence values
stamped on generated server samples, and the sequence values of samples
whose send succeeded. -/
structure TelemetryLoopState where
  sequence : ℕ
  emitted : List ℕ
  committed : List ℕ
  deriving Repr, DecidableEq

/-- The sequence behaviour of generate_telemetry_data: the counter is
incremented first when requested, and the sample is stamped with the
(possibly updated) counter. -/
def generate_telemetry_seq (seq : ℕ) (increment_sequence : Bool) : ℕ × ℕ :=
  if increment_sequence then (seq + 1, seq + 1) else (seq, seq)

/-- The sequence behaviour of generate_server_telemetry_data: it calls
generate_telemetry_data with increment_sequence False, then, when its own
increment_sequence flag (default True) is set, increments the counter and
restamps the sample with the new value - all before any send happens. -/
def generate_server_telemetry_seq (seq : ℕ) (increment_sequence : Bool) :
    ℕ × ℕ :=
  let r := generate_telemetry_seq seq false
  if increment_sequence then (r.1 + 1, r.1 + 1) else r

/-- One run of BoatDevice.telemetry_loop over a list of send outcomes: each
iteration generates a server sample via generate_server_telemetry_data
(with the default increment_sequence = True) and then attempts the send;
ConnectionClosed ends the loop, other failures continue it. -/
def telemetry_loop : List SendOutcome → TelemetryLoopState →
    TelemetryLoopState
  | [], st => st
  | o :: rest, st =>
    let g := generate_server_telemetry_seq st.sequence true
    let st' : TelemetryLoopState :=
      { sequence := g.1, emitted := st.emitted ++ [g.2],
        committed :=
          if o = SendOutcome.ok then st.committed ++ [g.2] else st.committed }
    match o with
    | SendOutcome.closed => st'
    | _ => telemetry_loop rest st'

/-- Number of telemetry_loop iterations actually executed for a given
outcome list (the loop stops after a ConnectionClosed outcome). -/
def execCount : List SendOutcome → ℕ
  | [] => 0
  | o :: rest => 1 + (if o = SendOutcome.closed then 0 else execCount rest)

/-- C5 (amended): the sequence counter grows by exactly one per generated
sample - the increment happens at generation time, before the send - so
sequence numbers are non-decreasing across any run and the emitted
sequence values are consecutive; committed (successfully sent) samples are
a subsequence of the emitted ones, so a failed send consumes (skips) its
sequence value rather than reusing it. -/
theorem C5_sequence_numbers (outs : List SendOutcome)
    (st : TelemetryLoopState) (hsub : st.committed.Sublist st.emitted) :
    (telemetry_loop outs st).sequence = st.sequence + execCount outs
    ∧ st.sequence ≤ (telemetry_loop outs st).sequence
    ∧ (telemetry_loop outs st).emitted
        = st.emitted ++ List.range' (st.sequence + 1) (execCount outs)
    ∧ ((telemetry_loop outs st).committed).Sublist
        (telemetry_loop outs st).emitted := by
  induction outs generalizing st with
  | nil =>
    refine ⟨by simp [telemetry_loop, execCount], le_refl _, ?_, hsub⟩
    simp [telemetry_loop, execCount]
  | cons o rest ih =>
    have hstep :
        ∀ st' : TelemetryLoopState,
          st'.sequence = st.sequence + 1 →
          st'.emitted = st.emitted ++ [st.sequence + 1] →
          st'.committed.Sublist st'.emitted →
          (telemetry_loop rest st').sequence
              = st.sequence + (1 + execCount rest)
            ∧ st.sequence ≤ (telemetry_loop rest st').sequence
            ∧ (telemetry_loop rest st').emitted
                = st.emitted
                  ++ List.range' (st.sequence + 1) (1 + execCount rest)
            ∧ ((telemetry_loop rest st').committed).Sublist
                (telemetry_loop rest st').emitted := by
      intro st' h1 h2 h3
      obtain ⟨ih1, ih2, ih3, ih4⟩ := ih st' h3
      refine ⟨by omega, by omega, ?_, ih4⟩
      rw [ih3, h2, h1]
      rw [show 1 + execCount rest = execCount rest + 1 from by omega]
      rw [List.range'_succ]
      simp
    cases o with
    | ok =>
      simp only [telemetry_loop, execCount, generate_server_telemetry_seq,
        generate_telemetry_seq]
      exact hstep _ rfl rfl (hsub.append (List.Sublist.refl _))
    | sendFail =>
      simp only [telemetry_loop, execCount, generate_server_telemetry_seq,
        generate_telemetry_seq]
      exact hstep _ rfl rfl
        (hsub.trans (List.sublist_append_left _ _))
    | closed =>
      simp only [telemetry_loop, execCount, generate_server_telemetry_seq,
        generate_telemetry_seq]
      refine ⟨by simp, by simp, by simp [List.range'], ?_⟩
      exact hsub.trans (List.sublist_append_left _ _)

/-- Witness for C5 at a concrete run: a failed send followed by a
successful one emits the consecutive sequence values 1 and 2. -/
theorem C5_sequence_numbers_witness :
    (telemetry_loop [SendOutcome.sendFail, SendOutcome.ok]
      (TelemetryLoopState.mk 0 [] [])).emitted = [] ++ List.range' 1 2 :=
  (C5_sequence_numbers [SendOutcome.sendFail, SendOutcome.ok]
    (TelemetryLoopState.mk 0 [] []) (List.nil_sublist _)).2.2.1

/-- C5 counterexample to the claim as stated: after one failed send and
one successful send, the counter was incremented twice (it stands at 2)
although only one sample was committed, and the committed sample carries
sequence 2 - sequence value 1 was consumed by the failed send and skipped,
because generate_server_telemetry_data increments before the send rather
than only on explicit commit. -/
theorem C5_skip_counterexample :
    (telemetry_loop [SendOutcome.sendFail, SendOutcome.ok]
        (TelemetryLoopState.mk 0 [] [])).committed = [2]
    ∧ (telemetry_loop [SendOutcome.sendFail, SendOutcome.ok]
        (TelemetryLoopState.mk 0 [] [])).sequence = 2
    ∧ ¬((telemetry_loop [SendOutcome.sendFail, SendOutcome.ok]
          (TelemetryLoopState.mk 0 [] [])).sequence
        = (telemetry_loop [SendOutcome.sendFail, SendOutcome.ok]
            (TelemetryLoopState.mk 0 [] [])).committed.length) :=
  ⟨rfl, rfl, by decide⟩

/-! ### device.py : reconnect backoff -/

/-- Connection-level events that BoatDevice.run reacts to by touching
reconnect_interval: a failed connect attempt, a successful connect, or a
loss of an established link. -/
inductive ConnEvent where
  | connectFailed
  | connected
  | linkLost
  deriving Repr, DecidableEq

/-- The backoff update applied after every failed connect attempt and
after every link loss:
reconnect_interval = min(reconnect_interval * 1.5, 60). -/
def backoffStep (interval : ℚ) : ℚ := min (interval * 1.5) 60

/-- How BoatDevice.run updates reconnect_interval on each event: backoff
after a failure or a link loss, reset to 5 on a successful connect. -/
def reconnectStep (interval : ℚ) : ConnEvent → ℚ
  | ConnEvent.connectFailed => backoffStep interval
  | ConnEvent.connected => 5
  | ConnEvent.linkLost => backoffStep interval

/-- reconnect_interval after a sequence of connection events, starting
from a given value (the constructor sets 5). -/
def runReconnect (interval : ℚ) (es : List ConnEvent) : ℚ :=
  es.foldl reconnectStep interval

/-- The wait used before the (n+1)-st retry in an uninterrupted failure
streak that starts at the initial interval 5 (the sleep happens before the
multiplicative update, so the n-th wait is the n-fold backoff of 5). -/
def backoffWait : ℕ → ℚ
  | 0 => 5
  | n + 1 => backoffStep (backoffWait n)

/-- While the interval stays in [5, 60], a non-connect event can only grow
it, and keeps it at most 60. -/
theorem reconnectStep_down_bounds (i : ℚ) (e : ConnEvent) (h5 : 5 ≤ i)
    (h60 : i ≤ 60) (hne : e ≠ ConnEvent.connected) :
    reconnectStep i e = min (i * 1.5) 60
    ∧ i ≤ reconnectStep i e ∧ reconnectStep i e ≤ 60 := by
  have hgrow : i ≤ min (i * 1.5) 60 := le_min (by nlinarith) h60
  have hcap : min (i * 1.5) 60 ≤ 60 := min_le_right _ _
  cases e with
  | connectFailed => exact ⟨rfl, hgrow, hcap⟩
  | connected => exact absurd rfl hne
  | linkLost => exact ⟨rfl, hgrow, hcap⟩

/-- The interval stays in [5, 60] over any event sequence. -/
theorem runReconnect_bounds (es : List ConnEvent) :
    ∀ i : ℚ, 5 ≤ i → i ≤ 60 →
      5 ≤ runReconnect i es ∧ runReconnect i es ≤ 60 := by
  induction es with
  | nil => intro i h5 h60; exact ⟨h5, h60⟩
  | cons e rest ih =>
    intro i h5 h60
    cases e with
    | connectFailed =>
      exact ih _ (le_min (by nlinarith) (by norm_num)) (min_le_right _ _)
    | connected => exact ih 5 (by norm_num) (by norm_num)
    | linkLost =>
      exact ih _ (le_min (by nlinarith) (by norm_num)) (min_le_right _ _)

/-- C6: while the link is down the interval evolves as
min(interval * 1.5, 60) after every failed connect attempt and every link
loss, hence is non-decreasing and capped at 60; it is reset to the minimum
5 exactly on a fresh successful connect; starting from 5 it always stays
in [5, 60]; and the n-th wait of an uninterrupted failure streak is
min(5 * 1.5^n, 60), i.e. 5, 7.5, 11.25, ... capped at 60. -/
theorem C6_reconnect_backoff :
    (∀ (i : ℚ) (e : ConnEvent), 5 ≤ i → i ≤ 60 → e ≠ ConnEvent.connected →
      reconnectStep i e = min (i * 1.5) 60
      ∧ i ≤ reconnectStep i e ∧ reconnectStep i e ≤ 60)
    ∧ (∀ i : ℚ, reconnectStep i ConnEvent.connected = 5)
    ∧ (∀ es : List ConnEvent,
        5 ≤ runReconnect 5 es ∧ runReconnect 5 es ≤ 60)
    ∧ (∀ n : ℕ, backoffWait n = min (5 * (3 / 2) ^ n) 60) := by
  refine ⟨reconnectStep_down_bounds, fun i => rfl,
    fun es => runReconnect_bounds es 5 (by norm_num) (by norm_num), ?_⟩
  intro n
  induction n with
  | zero =>
    rw [backoffWait]
    norm_num
  | succ n ih =>
    rw [backoffWait, ih, backoffStep]
    have hq : (0 : ℚ) ≤ (3 / 2 : ℚ) ^ n := by positivity
    rcases le_or_lt (5 * (3 / 2 : ℚ) ^ n) 60 with h | h
    · rw [min_eq_left h]
      have : 5 * (3 / 2 : ℚ) ^ n * 1.5 = 5 * (3 / 2) ^ (n + 1) := by
        rw [pow_succ]; ring_nf
      rw [this]
    · rw [min_eq_right h.le]
      have h1 : (60 : ℚ) ≤ 5 * (3 / 2) ^ (n + 1) := by
        rw [pow_succ]
        nlinarith
      rw [min_eq_right h1, min_eq_right (by norm_num)]

/-- Witness for C6 at concrete inputs: one failed attempt at interval 5
grows it to 7.5 and respects the bounds, a connect resets a large interval
to 5, a concrete down streak stays within [5, 60], and the fourth wait of
a failure streak is 16.875. -/
theorem C6_reconnect_backoff_witness :
    (reconnectStep 5 ConnEvent.connectFailed = min ((5 : ℚ) * 1.5) 60
      ∧ (5 : ℚ) ≤ reconnectStep 5 ConnEvent.connectFailed
      ∧ reconnectStep 5 ConnEvent.connectFailed ≤ 60)
    ∧ reconnectStep 59 ConnEvent.connected = 5
    ∧ (5 ≤ runReconnect 5 [ConnEvent.connectFailed, ConnEvent.linkLost]
      ∧ runReconnect 5 [ConnEvent.connectFailed, ConnEvent.linkLost] ≤ 60)
    ∧ backoffWait 3 = min ((5 : ℚ) * (3 / 2) ^ 3) 60 :=
  ⟨C6_reconnect_backoff.1 5 ConnEvent.connectFailed (by norm_num)
      (by norm_num) (by decide),
    C6_reconnect_backoff.2.1 59,
    C6_reconnect_backoff.2.2.1 [ConnEvent.connectFailed, ConnEvent.linkLost],
    C6_reconnect_backoff.2.2.2 3⟩

/-! ### video.py : SDP codec compatibility -/

/-- Split a character list at every occurrence of a separator character,
keeping empty segments - the semantics of Python str.split with an
explicit single-character separator. -/
def splitOnChar (sep : Char) : List Char → List (List Char)
  | [] => [[]]
  | c :: rest =>
    let r := splitOnChar sep rest
    if c = sep then [] :: r
    else
      match r with
      | [] => [[c]]
      | h :: t => (c :: h) :: t

/-- Substring containment - the semantics of the Python `in` operator on
strings. -/
def containsSub (pat : List Char) : List Char → Bool
  | [] => pat.isPrefixOf ([] : List Char)
  | c :: rest => pat.isPrefixOf (c :: rest) || containsSub pat rest

/-- Python str.upper on a codec token (ASCII). -/
def upperChars (l : List Char) : List Char := l.map Char.toUpper

/-- The codec list the video track declares supported
(self._supported_codecs). -/
def supported_codecs : List (List Char) := ["VP8".data, "H264".data]

/-- A codec token counted as compatible by get_codec_compatibility:
c in self._supported_codecs or c in ["H264", "VP8"]. -/
def recognizedCodec (c : List Char) : Bool :=
  supported_codecs.contains c || c == "H264".data || c == "VP8".data

/-- The codec-collecting loop of get_codec_compatibility over the SDP
lines: an a=rtpmap line contributes the token before the first slash of
its second space-separated field, uppercased (Python raises IndexError,
modelled as Except.error, when the line has no second field); otherwise an
a=fmtp line containing profile-level-id contributes "H264". -/
def codecsOfLines : List (List Char) → Except Unit (List (List Char))
  | [] => Except.ok []
  | line :: rest =>
    if "a=rtpmap:".data.isPrefixOf line then
      match (splitOnChar ' ' line)[1]? with
      | none => Except.error ()
      | some w =>
        (codecsOfLines rest).map
          (fun cs => upperChars ((splitOnChar '/' w).getD 0 []) :: cs)
    else if "a=fmtp:".data.isPrefixOf line
        && containsSub "profile-level-id".data line then
      (codecsOfLines rest).map (fun cs => "H264".data :: cs)
    else
      codecsOfLines rest

/-- WebcamVideoTrack.get_codec_compatibility, reduced to its boolean
verdict (the human-readable message part of the returned tuple is
omitted): an empty/absent SDP is rejected; with an empty parsed codec list
and a video section, compatible; with a recognized codec, compatible; with
a non-empty codec list and no recognized codec, rejected; otherwise
compatible by permissive default. -/
def get_codec_compatibility (remote_sdp : List Char) : Except Unit Bool :=
  if remote_sdp = [] then Except.ok false
  else
    match codecsOfLines (splitOnChar '\n' remote_sdp) with
    | Except.error e => Except.error e
    | Except.ok remote_codecs =>
      if remote_codecs = [] ∧ containsSub "m=video".data remote_sdp then
        Except.ok true
      else
        let compatible_codecs := remote_codecs.filter recognizedCodec
        if compatible_codecs ≠ [] then Except.ok true
        else if remote_codecs ≠ [] then Except.ok false
        else Except.ok true

/-- C9 (amended): the codec check accepts every SDP whose parsed codec
list contains a recognized token and every non-empty SDP with a video
section and an empty parsed codec list (in particular an SDP with an
m=video section and no a=rtpmap lines); its rejection cases are exactly an
empty/absent SDP and an SDP whose parsed codec list is non-empty with no
recognized codec. -/
theorem C9_codec_check (sdp : List Char) :
    (∀ cs, codecsOfLines (splitOnChar '\n' sdp) = Except.ok cs →
      (∃ c ∈ cs, recognizedCodec c = true) →
      get_codec_compatibility sdp = Except.ok true)
    ∧ (sdp ≠ [] → codecsOfLines (splitOnChar '\n' sdp) = Except.ok [] →
        containsSub "m=video".data sdp = true →
        get_codec_compatibility sdp = Except.ok true)
    ∧ (get_codec_compatibility sdp = Except.ok false ↔
        sdp = []
        ∨ ∃ cs, codecsOfLines (splitOnChar '\n' sdp) = Except.ok cs
            ∧ cs ≠ [] ∧ ∀ c ∈ cs, recognizedCodec c = false)
    ∧ get_codec_compatibility "v=0\nm=video 9 UDP/TLS/RTP/SAVPF 96".data
        = Except.ok true := by
  refine ⟨?_, ?_, ?_, rfl⟩
  · intro cs hcs ⟨c, hc, hrec⟩
    have hsdp : sdp ≠ [] := by
      intro he
      subst he
      rw [show codecsOfLines (splitOnChar '\n' ([] : List Char))
          = Except.ok [] from rfl] at hcs
      cases hcs
      exact absurd hc (List.not_mem_nil c)
    have hfl : cs.filter recognizedCodec ≠ [] :=
      List.ne_nil_of_mem (List.mem_filter.mpr ⟨hc, hrec⟩)
    have hcsne : cs ≠ [] := List.ne_nil_of_mem hc
    unfold get_codec_compatibility
    rw [if_neg hsdp, hcs]
    dsimp only
    rw [if_neg (fun hand => hcsne hand.1), if_pos hfl]
  · intro hsdp hcs hm
    unfold get_codec_compatibility
    rw [if_neg hsdp, hcs]
    dsimp only
    rw [if_pos ⟨rfl, hm⟩]
  · by_cases hsdp : sdp = []
    · subst hsdp
      constructor
      · intro _
        exact Or.inl rfl
      · intro _
        rfl
    · unfold get_codec_compatibility
      rw [if_neg hsdp]
      cases hres : codecsOfLines (splitOnChar '\n' sdp) with
      | error e =>
        dsimp only
        constructor
        · intro h
          cases h
        · rintro (h | ⟨cs, hcs, _, _⟩)
          · exact absurd h hsdp
          · cases hcs
      | ok rcs =>
        dsimp only
        by_cases h1 : rcs = [] ∧ containsSub "m=video".data sdp = true
        · rw [if_pos h1]
          constructor
          · intro h
            cases h
          · rintro (h | ⟨cs, hcs, hne, _⟩)
            · exact absurd h hsdp
            · cases hcs
              exact absurd h1.1 hne
        · rw [if_neg h1]
          by_cases h2 : rcs.filter recognizedCodec ≠ []
          · rw [if_pos h2]
            constructor
            · intro h
              cases h
            · rintro (h | ⟨cs, hcs, _, hall⟩)
              · exact absurd h hsdp
              · cases hcs
                obtain ⟨c, hcmem⟩ := List.exists_mem_of_ne_nil _ h2
                have hmf := List.mem_filter.mp hcmem
                rw [hall c hmf.1] at hmf
                cases hmf.2
          · rw [if_neg h2]
            push_neg at h2
            by_cases h3 : rcs ≠ []
            · rw [if_pos h3]
              constructor
              · intro _
                exact Or.inr ⟨rcs, rfl, h3, fun c hc => by
                  have hmf := List.filter_eq_nil_iff.mp h2 c hc
                  simpa using hmf⟩
              · intro _
                rfl
            · rw [if_neg h3]
              push_neg at h3
              constructor
              · intro h
                cases h
              · rintro (h | ⟨cs, hcs, hne, _⟩)
                · exact absurd h hsdp
                · cases hcs
                  exact absurd h3 hne

/-- Witness for C9 at a concrete SDP: an offer advertising VP8 via an
a=rtpmap line is compatible. -/
theorem C9_codec_check_witness :
    get_codec_compatibility "a=rtpmap:96 VP8/90000\nm=video 9".data
      = Except.ok true :=
  (C9_codec_check _).1 ["VP8".data] rfl
    ⟨"VP8".data, by decide, by decide⟩

/-- C9 counterexample to the claim as stated: the empty (absent) SDP is
rejected even though its parsed codec list is empty, so a non-empty
unrecognized codec list is not the only rejection case. -/
theorem C9_empty_sdp_counterexample :
    get_codec_compatibility "".data = Except.ok false
    ∧ codecsOfLines (splitOnChar '\n' "".data) = Except.ok [] :=
  ⟨rfl, rfl⟩
